import Mathlib

/-!
Verification of the flash-write session engine in
src/flasher_stub/stub_write_flash.c.

The C file maintains one global record of flashing state (the static struct
fs) plus one static output buffer pointer inside handle_flash_deflated_data.
Both are embedded below as fields of a single FlashState record.  Unsigned
32-bit arithmetic is embedded as Nat with an explicit modulus U32 at every
compound assignment where the C code can wrap; the C int fields
next_erase_sector and remaining_erase_sector provably never hold negative
values (they start at 0, handle_flash_begin stores non-negative quotients and
every erase step subtracts at most the current value), so they are embedded as
Nat as well.

External collaborators are embedded as explicit inputs: the SPIUnlock result
and the SPIWrite failure flag are Bool arguments, spiflash readiness is a
Bool argument (respectively a schedule of Bools), and the miniz inflate engine
tinfl_decompress is an arbitrary oracle function threaded through an abstract
inflator context.  SPI commands that matter to the specification (erase
sector, erase block, program, encrypted program) are recorded in an output
trace; pure status-read polls are not observable in the trace.
-/

/-- Flash sector size in bytes, the configuration constant FLASH_SECTOR_SIZE
(4 KiB sectors, fixed for the chip family). -/
def FLASH_SECTOR_SIZE : Nat := 4096

/-- Number of 4 KiB sectors per 64 KiB erasable block, the configuration
constant SECTORS_PER_BLOCK. -/
def SECTORS_PER_BLOCK : Nat := 16

/-- Modulus of unsigned 32-bit arithmetic. -/
def U32 : Nat := 4294967296

/-- Capacity of the static output accumulation buffer out_buf in
handle_flash_deflated_data. -/
def OUT_BUF_SIZE : Nat := 32768

/-- Error codes of the engine, the esp_command_error values used by
stub_write_flash.c. -/
inductive esp_command_error where
  | ESP_OK
  | ESP_NOT_IN_FLASH_MODE
  | ESP_NOT_ENOUGH_DATA
  | ESP_TOO_MUCH_DATA
  | ESP_FAILED_SPI_UNLOCK
  | ESP_FAILED_SPI_OP
  | ESP_INFLATE_ERROR
  deriving DecidableEq, Repr

/-- SPI flash commands recorded by the embedding.  Addresses carry the
low 24 bits actually written to SPI_ADDR_REG. -/
inductive FlashCmd where
  | eraseSector (addr : Nat)
  | eraseBlock (addr : Nat)
  | program (addr len : Nat)
  | programEncrypted (addr len : Nat)
  deriving DecidableEq, Repr

/-- Global state of the stub: the fields of the static struct fs, in source
order, plus out_fill, the distance next_out - out_buf of the static output
pointer inside handle_flash_deflated_data (global C state retained across
calls and across sessions).  The tinfl_decompressor context is abstracted as
a Nat owned by the inflate oracle. -/
structure FlashState where
  in_flash_mode : Bool
  next_write : Nat
  next_erase_sector : Nat
  remaining : Nat
  remaining_erase_sector : Nat
  last_error : esp_command_error
  inflator : Nat
  remaining_compressed : Nat
  out_fill : Nat
  deriving DecidableEq, Repr

/-- Zero-initialized state at firmware start (static storage). -/
def initState : FlashState :=
  { in_flash_mode := false, next_write := 0, next_erase_sector := 0,
    remaining := 0, remaining_erase_sector := 0,
    last_error := .ESP_OK, inflator := 0, remaining_compressed := 0,
    out_fill := 0 }

/-- Embedding of is_in_flash_mode. -/
def is_in_flash_mode (s : FlashState) : Bool := s.in_flash_mode

/-- Embedding of get_flash_error. -/
def get_flash_error (s : FlashState) : esp_command_error := s.last_error

/-- Embedding of start_next_erase.  The ready argument is the result of the
spiflash_is_ready poll; when the hardware is busy the function returns with
no state change, exactly as in the source.  On an erase it advances
next_erase_sector and decrements remaining_erase_sector by the number of
sectors erased, choosing a 64 KiB block erase exactly when at least
SECTORS_PER_BLOCK sectors remain and the erase cursor is block aligned.
The recorded address is the low 24 bits written to SPI_ADDR_REG. -/
def start_next_erase (ready : Bool) (s : FlashState) :
    FlashState × List FlashCmd :=
  if s.remaining_erase_sector = 0 then (s, [])
  else if ready = false then (s, [])
  else if SECTORS_PER_BLOCK ≤ s.remaining_erase_sector ∧
          s.next_erase_sector % SECTORS_PER_BLOCK = 0 then
    ({ s with
        next_erase_sector := s.next_erase_sector + SECTORS_PER_BLOCK,
        remaining_erase_sector :=
          s.remaining_erase_sector - SECTORS_PER_BLOCK },
     [FlashCmd.eraseBlock (s.next_erase_sector * FLASH_SECTOR_SIZE % 16777216)])
  else
    ({ s with
        next_erase_sector := s.next_erase_sector + 1,
        remaining_erase_sector := s.remaining_erase_sector - 1 },
     [FlashCmd.eraseSector (s.next_erase_sector * FLASH_SECTOR_SIZE % 16777216)])

/-- Embedding of the erase-ahead loop in handle_flash_data and
handle_flash_encrypt_data: while remaining_erase_sector is positive and
next_erase_sector has not passed last_sector, call start_next_erase.  The C
loop blocks by re-polling readiness until the flash accepts each erase, so
its observable effect equals calling start_next_erase with ready true; fuel
bounds the recursion and any fuel at least the current remaining_erase_sector
reaches the loop exit condition (theorem eraseCover_exit below). -/
def eraseCover : Nat → Nat → FlashState → FlashState × List FlashCmd
  | 0, _, s => (s, [])
  | fuel + 1, last_sector, s =>
    if 0 < s.remaining_erase_sector ∧ s.next_erase_sector ≤ last_sector then
      let e := start_next_erase true s
      let r := eraseCover fuel last_sector e.1
      (r.1, e.2 ++ r.2)
    else (s, [])

/-- Embedding of handle_flash_begin.  The unlock_ok argument is the result of
the SPIUnlock call (true when SPIUnlock returned 0).  Note the source sets
every session field, including in_flash_mode, before attempting the unlock,
and does not roll anything back when the unlock fails.  The computation of
remaining_erase_sector is 32-bit unsigned arithmetic, hence the explicit
modulus. -/
def handle_flash_begin (unlock_ok : Bool) (total_size offset : Nat)
    (s : FlashState) : FlashState × esp_command_error :=
  let s' := { s with
    in_flash_mode := true,
    next_write := offset,
    next_erase_sector := offset / FLASH_SECTOR_SIZE,
    remaining := total_size,
    remaining_erase_sector :=
      ((offset % FLASH_SECTOR_SIZE + total_size + (FLASH_SECTOR_SIZE - 1))
        % U32) / FLASH_SECTOR_SIZE,
    last_error := .ESP_OK }
  if unlock_ok then (s', .ESP_OK) else (s', .ESP_FAILED_SPI_UNLOCK)

/-- Embedding of handle_flash_deflated_begin: delegate to handle_flash_begin,
reset the inflator context (tinfl_init) and record the compressed size.  The
static output pointer next_out is not touched by the source here. -/
def handle_flash_deflated_begin (unlock_ok : Bool)
    (uncompressed_size compressed_size offset : Nat) (s : FlashState) :
    FlashState × esp_command_error :=
  let r := handle_flash_begin unlock_ok uncompressed_size offset s
  ({ r.1 with inflator := 0, remaining_compressed := compressed_size }, r.2)

/-- Embedding of handle_flash_data.  The spi_fail argument is true when the
SPIWrite ROM call reports failure.  The length is first clamped to the bytes
remaining; a zero clamped length returns before any hardware interaction.
Otherwise the erase loop runs until the frontier passes the sector index
last_sector computed from the end of this write, the data is programmed at
next_write, a failure latches ESP_FAILED_SPI_OP, and the cursors advance. -/
def handle_flash_data (spi_fail : Bool) (length : Nat) (s : FlashState) :
    FlashState × List FlashCmd :=
  let len := if s.remaining < length then s.remaining else length
  if len = 0 then (s, [])
  else
    let last_sector := ((s.next_write + len) % U32) / FLASH_SECTOR_SIZE
    let er := eraseCover s.remaining_erase_sector last_sector s
    let s1 := er.1
    let s2 := if spi_fail then { s1 with last_error := .ESP_FAILED_SPI_OP }
              else s1
    ({ s2 with
        next_write := (s2.next_write + len) % U32,
        remaining := s2.remaining - len },
     er.2 ++ [FlashCmd.program s1.next_write len])

/-- Embedding of handle_flash_encrypt_data (the ESP32 variant, whose cursor
and erase bookkeeping is identical on every chip): same clamping, erase loop
and accounting as handle_flash_data, but the program primitive is the
hardware encrypted write. -/
def handle_flash_encrypt_data (spi_fail : Bool) (length : Nat)
    (s : FlashState) : FlashState × List FlashCmd :=
  let len := if s.remaining < length then s.remaining else length
  if len = 0 then (s, [])
  else
    let last_sector := ((s.next_write + len) % U32) / FLASH_SECTOR_SIZE
    let er := eraseCover s.remaining_erase_sector last_sector s
    let s1 := er.1
    let s2 := if spi_fail then { s1 with last_error := .ESP_FAILED_SPI_OP }
              else s1
    ({ s2 with
        next_write := (s2.next_write + len) % U32,
        remaining := s2.remaining - len },
     er.2 ++ [FlashCmd.programEncrypted s1.next_write len])

/-- One step of the external tinfl_decompress engine: the new inflator
context, the compressed bytes consumed (in_bytes), the plain bytes produced
(out_bytes) and the returned tinfl status (DONE is 0, negative statuses are
failures, positive statuses request more input or more output space). -/
structure InflateResult where
  inflator : Nat
  consumed : Nat
  produced : Nat
  status : Int
  deriving DecidableEq, Repr

/-- Environment of a handle_flash_deflated_data call: the inflate oracle
(given the inflator context, the input bytes available, the output space
available and the HAS_MORE_INPUT flag) plus per-iteration schedules for the
spiflash readiness poll inside the opportunistic start_next_erase and for
SPIWrite failures of the flush writes. -/
structure DeflateEnv where
  inflate : Nat → Nat → Nat → Bool → InflateResult
  ready : Nat → Bool
  spi_fail : Nat → Bool

/-- An inflate oracle is well formed when it never consumes more input than
offered nor produces more output than the space it was given, the contract
of tinfl_decompress. -/
def DeflateEnv.WellFormed (env : DeflateEnv) : Prop :=
  ∀ inf avail space more,
    (env.inflate inf avail space more).consumed ≤ avail ∧
    (env.inflate inf avail space more).produced ≤ space

/-- Embedding of the decompression loop of handle_flash_deflated_data.  The
index k numbers the iterations for the schedules in env; length is the input
not yet consumed, status the current tinfl status (initially
TINFL_STATUS_NEEDS_MORE_INPUT, which is 1).  Each iteration opportunistically
calls start_next_erase, runs the inflate oracle with the HAS_MORE_INPUT flag
set exactly when remaining_compressed exceeds the input left, updates
remaining_compressed with 32-bit wraparound, advances the fill offset of the
output buffer, and flushes the buffer through handle_flash_data when the
status is terminal or the buffer is full, resetting the fill offset.  Fuel
bounds the recursion; the C loop can spin forever on a non-conforming
decompressor, so every theorem below holds for every fuel. -/
def deflateLoop (env : DeflateEnv) :
    Nat → Nat → Nat → Int → FlashState → FlashState × Int × List FlashCmd
  | 0, _, _, status, s => (s, status, [])
  | fuel + 1, k, length, status, s =>
    if 0 < length ∧ 0 < s.remaining ∧ 0 < status then
      let out_space := OUT_BUF_SIZE - s.out_fill
      let has_more := length < s.remaining_compressed
      let e := start_next_erase (env.ready k) s
      let s1 := e.1
      let r := env.inflate s1.inflator length out_space has_more
      let s2 := { s1 with
        inflator := r.inflator,
        remaining_compressed :=
          (s1.remaining_compressed + U32 - r.consumed % U32) % U32,
        out_fill := s1.out_fill + r.produced }
      let length' := length - r.consumed
      if r.status ≤ 0 ∨ s2.out_fill = OUT_BUF_SIZE then
        let w := handle_flash_data (env.spi_fail k) s2.out_fill s2
        let s3 := { w.1 with out_fill := 0 }
        let rec_ := deflateLoop env fuel (k + 1) length' r.status s3
        (rec_.1, rec_.2.1, e.2 ++ w.2 ++ rec_.2.2)
      else
        let rec_ := deflateLoop env fuel (k + 1) length' r.status s2
        (rec_.1, rec_.2.1, e.2 ++ rec_.2.2)
    else (s, status, [])

/-- Embedding of handle_flash_deflated_data: run the loop starting from
status TINFL_STATUS_NEEDS_MORE_INPUT (1), then apply the terminal
bookkeeping, in source order: a status below TINFL_STATUS_DONE (0) latches
ESP_INFLATE_ERROR; status DONE with plain bytes still expected latches
ESP_NOT_ENOUGH_DATA; a status other than DONE with no plain bytes expected
latches ESP_TOO_MUCH_DATA. -/
def handle_flash_deflated_data (env : DeflateEnv) (fuel length : Nat)
    (s : FlashState) : FlashState × List FlashCmd :=
  let r := deflateLoop env fuel 0 length 1 s
  let s1 := r.1
  let status := r.2.1
  let s2 := if status < 0 then { s1 with last_error := .ESP_INFLATE_ERROR }
            else s1
  let s3 := if status = 0 ∧ 0 < s2.remaining then
              { s2 with last_error := .ESP_NOT_ENOUGH_DATA }
            else s2
  let s4 := if status ≠ 0 ∧ s3.remaining = 0 then
              { s3 with last_error := .ESP_TOO_MUCH_DATA }
            else s3
  (s4, r.2.2)

/-- Embedding of handle_flash_end: not active reports ESP_NOT_IN_FLASH_MODE,
unwritten bytes report ESP_NOT_ENOUGH_DATA (leaving the session active),
otherwise the active flag is cleared and the latched error is returned. -/
def handle_flash_end (s : FlashState) : FlashState × esp_command_error :=
  if s.in_flash_mode = false then (s, .ESP_NOT_IN_FLASH_MODE)
  else if 0 < s.remaining then (s, .ESP_NOT_ENOUGH_DATA)
  else ({ s with in_flash_mode := false }, s.last_error)

/-- Number of plain-programmed bytes recorded in a command trace. -/
def progBytes : List FlashCmd → Nat
  | [] => 0
  | FlashCmd.program _ n :: cs => n + progBytes cs
  | _ :: cs => progBytes cs

/-- Ceiling division as written in the specification: the number of
SECTOR_SIZE units needed to cover x bytes is ceil(x / SECTOR_SIZE).  This
definition follows the words of the spec, for comparison against the
computation performed by handle_flash_begin. -/
def specCeilDiv (x d : Nat) : Nat := (x + d - 1) / d

/-- States of the engine reachable within a session that was opened by
handle_flash_begin (or handle_flash_deflated_begin) with the given offset and
total size, followed by any sequence of data-phase operations, opportunistic
erases and end calls, under arbitrary hardware responses and an arbitrary
decompressor. -/
inductive Reached (offset total_size : Nat) : FlashState → Prop where
  | begin_step (unlock_ok : Bool) (s : FlashState) :
      Reached offset total_size
        (handle_flash_begin unlock_ok total_size offset s).1
  | deflated_begin_step (unlock_ok : Bool) (compressed : Nat)
      (s : FlashState) :
      Reached offset total_size
        (handle_flash_deflated_begin unlock_ok total_size compressed offset
          s).1
  | data_step (f : Bool) (len : Nat) {s : FlashState} :
      Reached offset total_size s →
      Reached offset total_size (handle_flash_data f len s).1
  | encrypt_step (f : Bool) (len : Nat) {s : FlashState} :
      Reached offset total_size s →
      Reached offset total_size (handle_flash_encrypt_data f len s).1
  | deflated_step (env : DeflateEnv) (fuel len : Nat) {s : FlashState} :
      Reached offset total_size s →
      Reached offset total_size (handle_flash_deflated_data env fuel len s).1
  | erase_step (r : Bool) {s : FlashState} :
      Reached offset total_size s →
      Reached offset total_size (start_next_erase r s).1
  | end_step {s : FlashState} :
      Reached offset total_size s →
      Reached offset total_size (handle_flash_end s).1

/-- A conforming decompressor behavior that consumes all its input, produces
nothing and reports stream completion (TINFL_STATUS_DONE). -/
def envDone : DeflateEnv :=
  { inflate := fun _ avail _ _ =>
      { inflator := 0, consumed := avail, produced := 0, status := 0 },
    ready := fun _ => false, spi_fail := fun _ => false }

/-- A conforming decompressor behavior that consumes all its input, writes
four bytes of output and then reports the failure status
TINFL_STATUS_FAILED (-1), as tinfl_decompress does on a corrupt stream after
having emitted some decoded bytes. -/
def envFailAfterOutput : DeflateEnv :=
  { inflate := fun _ avail space _ =>
      { inflator := 0, consumed := avail, produced := min 4 space,
        status := -1 },
    ready := fun _ => true, spi_fail := fun _ => false }

/-- A conforming decompressor behavior that consumes all its input, writes
five bytes of output and asks for more input (TINFL_STATUS_NEEDS_MORE_INPUT),
leaving the decoded bytes buffered and unflushed. -/
def envNeedsInput : DeflateEnv :=
  { inflate := fun _ avail space _ =>
      { inflator := 0, consumed := avail, produced := min 5 space,
        status := 1 },
    ready := fun _ => false, spi_fail := fun _ => false }

/-! Basic facts about the erase scheduler. -/

@[simp] theorem start_next_erase_next_write (r : Bool) (s : FlashState) :
    (start_next_erase r s).1.next_write = s.next_write := by
  unfold start_next_erase; split_ifs <;> rfl

@[simp] theorem start_next_erase_remaining (r : Bool) (s : FlashState) :
    (start_next_erase r s).1.remaining = s.remaining := by
  unfold start_next_erase; split_ifs <;> rfl

@[simp] theorem start_next_erase_last_error (r : Bool) (s : FlashState) :
    (start_next_erase r s).1.last_error = s.last_error := by
  unfold start_next_erase; split_ifs <;> rfl

@[simp] theorem start_next_erase_in_flash_mode (r : Bool) (s : FlashState) :
    (start_next_erase r s).1.in_flash_mode = s.in_flash_mode := by
  unfold start_next_erase; split_ifs <;> rfl

@[simp] theorem start_next_erase_inflator (r : Bool) (s : FlashState) :
    (start_next_erase r s).1.inflator = s.inflator := by
  unfold start_next_erase; split_ifs <;> rfl

@[simp] theorem start_next_erase_remaining_compressed (r : Bool)
    (s : FlashState) :
    (start_next_erase r s).1.remaining_compressed =
      s.remaining_compressed := by
  unfold start_next_erase; split_ifs <;> rfl

@[simp] theorem start_next_erase_out_fill (r : Bool) (s : FlashState) :
    (start_next_erase r s).1.out_fill = s.out_fill := by
  unfold start_next_erase; split_ifs <;> rfl

theorem start_next_erase_sum (r : Bool) (s : FlashState) :
    (start_next_erase r s).1.next_erase_sector +
      (start_next_erase r s).1.remaining_erase_sector =
    s.next_erase_sector + s.remaining_erase_sector := by
  unfold start_next_erase
  split_ifs with h1 h2 h3 <;> simp_all [SECTORS_PER_BLOCK] <;> try omega

theorem start_next_erase_decreases (s : FlashState)
    (h : 0 < s.remaining_erase_sector) :
    (start_next_erase true s).1.remaining_erase_sector <
      s.remaining_erase_sector := by
  unfold start_next_erase
  split_ifs with h1 h2 h3 <;> simp_all [SECTORS_PER_BLOCK]

theorem start_next_erase_ne_le (r : Bool) (s : FlashState) :
    s.next_erase_sector ≤ (start_next_erase r s).1.next_erase_sector := by
  unfold start_next_erase
  split_ifs <;> simp

theorem progBytes_append (a b : List FlashCmd) :
    progBytes (a ++ b) = progBytes a + progBytes b := by
  induction a with
  | nil => simp [progBytes]
  | cons c cs ih => cases c <;> simp [progBytes, ih, Nat.add_assoc]


theorem progBytes_start_next_erase (r : Bool) (s : FlashState) :
    progBytes (start_next_erase r s).2 = 0 := by
  unfold start_next_erase
  split_ifs <;> simp [progBytes]

@[simp] theorem eraseCover_next_write (fuel last_sector : Nat)
    (s : FlashState) :
    (eraseCover fuel last_sector s).1.next_write = s.next_write := by
  induction fuel generalizing s with
  | zero => rfl
  | succ n ih =>
    simp only [eraseCover]
    split_ifs with h
    · simp [ih]
    · rfl

@[simp] theorem eraseCover_remaining (fuel last_sector : Nat)
    (s : FlashState) :
    (eraseCover fuel last_sector s).1.remaining = s.remaining := by
  induction fuel generalizing s with
  | zero => rfl
  | succ n ih =>
    simp only [eraseCover]
    split_ifs with h
    · simp [ih]
    · rfl

@[simp] theorem eraseCover_last_error (fuel last_sector : Nat)
    (s : FlashState) :
    (eraseCover fuel last_sector s).1.last_error = s.last_error := by
  induction fuel generalizing s with
  | zero => rfl
  | succ n ih =>
    simp only [eraseCover]
    split_ifs with h
    · simp [ih]
    · rfl

@[simp] theorem eraseCover_in_flash_mode (fuel last_sector : Nat)
    (s : FlashState) :
    (eraseCover fuel last_sector s).1.in_flash_mode = s.in_flash_mode := by
  induction fuel generalizing s with
  | zero => rfl
  | succ n ih =>
    simp only [eraseCover]
    split_ifs with h
    · simp [ih]
    · rfl

@[simp] theorem eraseCover_inflator (fuel last_sector : Nat)
    (s : FlashState) :
    (eraseCover fuel last_sector s).1.inflator = s.inflator := by
  induction fuel generalizing s with
  | zero => rfl
  | succ n ih =>
    simp only [eraseCover]
    split_ifs with h
    · simp [ih]
    · rfl

@[simp] theorem eraseCover_remaining_compressed (fuel last_sector : Nat)
    (s : FlashState) :
    (eraseCover fuel last_sector s).1.remaining_compressed =
      s.remaining_compressed := by
  induction fuel generalizing s with
  | zero => rfl
  | succ n ih =>
    simp only [eraseCover]
    split_ifs with h
    · simp [ih]
    · rfl

@[simp] theorem eraseCover_out_fill (fuel last_sector : Nat)
    (s : FlashState) :
    (eraseCover fuel last_sector s).1.out_fill = s.out_fill := by
  induction fuel generalizing s with
  | zero => rfl
  | succ n ih =>
    simp only [eraseCover]
    split_ifs with h
    · simp [ih]
    · rfl

theorem eraseCover_sum (fuel last_sector : Nat) (s : FlashState) :
    (eraseCover fuel last_sector s).1.next_erase_sector +
      (eraseCover fuel last_sector s).1.remaining_erase_sector =
    s.next_erase_sector + s.remaining_erase_sector := by
  induction fuel generalizing s with
  | zero => simp [eraseCover]
  | succ n ih =>
    simp only [eraseCover]
    split_ifs with h
    · exact (ih (start_next_erase true s).1).trans (start_next_erase_sum true s)
    · simp

theorem eraseCover_exit (fuel last_sector : Nat) (s : FlashState)
    (h : s.remaining_erase_sector ≤ fuel) :
    (eraseCover fuel last_sector s).1.remaining_erase_sector = 0 ∨
      last_sector < (eraseCover fuel last_sector s).1.next_erase_sector := by
  induction fuel generalizing s with
  | zero =>
    simp [eraseCover]
    omega
  | succ n ih =>
    simp only [eraseCover]
    split_ifs with hg
    · exact ih (start_next_erase true s).1
        (by have := start_next_erase_decreases s hg.1; omega)
    · simp only []
      omega

theorem progBytes_eraseCover (fuel last_sector : Nat) (s : FlashState) :
    progBytes (eraseCover fuel last_sector s).2 = 0 := by
  induction fuel generalizing s with
  | zero => simp [eraseCover, progBytes]
  | succ n ih =>
    simp only [eraseCover]
    split_ifs with h
    · simp only [progBytes_append, progBytes_start_next_erase,
        ih (start_next_erase true s).1]
    · simp [progBytes]

/-! Facts about the plain and encrypted data operations. -/

theorem handle_flash_data_clamp_zero (f : Bool) (length : Nat)
    (s : FlashState)
    (h : (if s.remaining < length then s.remaining else length) = 0) :
    handle_flash_data f length s = (s, []) := by
  simp [handle_flash_data, h]

theorem handle_flash_data_pos (f : Bool) (length len : Nat) (s : FlashState)
    (hlen : (if s.remaining < length then s.remaining else length) = len)
    (h : len ≠ 0) :
    (handle_flash_data f length s).1.next_write =
      (s.next_write + len) % U32 ∧
    (handle_flash_data f length s).1.remaining = s.remaining - len ∧
    (handle_flash_data f length s).1.last_error =
      (if f = true then .ESP_FAILED_SPI_OP else s.last_error) ∧
    progBytes (handle_flash_data f length s).2 = len := by
  simp only [handle_flash_data, hlen]
  rw [if_neg h]
  cases f <;>
    simp [progBytes_append, progBytes, progBytes_eraseCover]

theorem handle_flash_data_erase_sum (f : Bool) (length : Nat)
    (s : FlashState) :
    (handle_flash_data f length s).1.next_erase_sector +
      (handle_flash_data f length s).1.remaining_erase_sector =
    s.next_erase_sector + s.remaining_erase_sector := by
  by_cases h : (if s.remaining < length then s.remaining else length) = 0
  · rw [handle_flash_data_clamp_zero f length s h]
  · simp only [handle_flash_data]
    rw [if_neg h]
    cases f <;> simpa using eraseCover_sum _ _ s

theorem handle_flash_data_sum_mod (f : Bool) (length : Nat)
    (s : FlashState) :
    ((handle_flash_data f length s).1.next_write +
      (handle_flash_data f length s).1.remaining) % U32 =
    (s.next_write + s.remaining) % U32 := by
  by_cases h : (if s.remaining < length then s.remaining else length) = 0
  · rw [handle_flash_data_clamp_zero f length s h]
  · obtain ⟨h1, h2, -, -⟩ := handle_flash_data_pos f length _ s rfl h
    rw [h1, h2]
    have hle : (if s.remaining < length then s.remaining else length) ≤
        s.remaining := by split <;> omega
    rw [Nat.mod_add_mod]
    congr 1
    omega

theorem handle_flash_data_sum_le (f : Bool) (length : Nat)
    (s : FlashState) :
    (handle_flash_data f length s).1.next_write +
      (handle_flash_data f length s).1.remaining ≤
    s.next_write + s.remaining := by
  by_cases h : (if s.remaining < length then s.remaining else length) = 0
  · rw [handle_flash_data_clamp_zero f length s h]
  · obtain ⟨h1, h2, -, -⟩ := handle_flash_data_pos f length _ s rfl h
    rw [h1, h2]
    have hle : (if s.remaining < length then s.remaining else length) ≤
        s.remaining := by split <;> omega
    have hmod := Nat.mod_le
      (s.next_write + if s.remaining < length then s.remaining else length)
      U32
    omega

theorem handle_flash_data_last_error_cases (f : Bool) (length : Nat)
    (s : FlashState) :
    (handle_flash_data f length s).1.last_error = s.last_error ∨
    (handle_flash_data f length s).1.last_error = .ESP_FAILED_SPI_OP := by
  by_cases h : (if s.remaining < length then s.remaining else length) = 0
  · rw [handle_flash_data_clamp_zero f length s h]
    exact Or.inl rfl
  · obtain ⟨-, -, h3, -⟩ := handle_flash_data_pos f length _ s rfl h
    rw [h3]
    cases f <;> simp

theorem handle_flash_encrypt_data_clamp_zero (f : Bool) (length : Nat)
    (s : FlashState)
    (h : (if s.remaining < length then s.remaining else length) = 0) :
    handle_flash_encrypt_data f length s = (s, []) := by
  simp [handle_flash_encrypt_data, h]

theorem handle_flash_encrypt_data_pos (f : Bool) (length len : Nat)
    (s : FlashState)
    (hlen : (if s.remaining < length then s.remaining else length) = len)
    (h : len ≠ 0) :
    (handle_flash_encrypt_data f length s).1.next_write =
      (s.next_write + len) % U32 ∧
    (handle_flash_encrypt_data f length s).1.remaining = s.remaining - len ∧
    (handle_flash_encrypt_data f length s).1.last_error =
      (if f = true then .ESP_FAILED_SPI_OP else s.last_error) := by
  simp only [handle_flash_encrypt_data, hlen]
  rw [if_neg h]
  cases f <;> simp

theorem handle_flash_encrypt_data_erase_sum (f : Bool) (length : Nat)
    (s : FlashState) :
    (handle_flash_encrypt_data f length s).1.next_erase_sector +
      (handle_flash_encrypt_data f length s).1.remaining_erase_sector =
    s.next_erase_sector + s.remaining_erase_sector := by
  by_cases h : (if s.remaining < length then s.remaining else length) = 0
  · rw [handle_flash_encrypt_data_clamp_zero f length s h]
  · simp only [handle_flash_encrypt_data]
    rw [if_neg h]
    cases f <;> simpa using eraseCover_sum _ _ s

theorem handle_flash_encrypt_data_sum_mod (f : Bool) (length : Nat)
    (s : FlashState) :
    ((handle_flash_encrypt_data f length s).1.next_write +
      (handle_flash_encrypt_data f length s).1.remaining) % U32 =
    (s.next_write + s.remaining) % U32 := by
  by_cases h : (if s.remaining < length then s.remaining else length) = 0
  · rw [handle_flash_encrypt_data_clamp_zero f length s h]
  · obtain ⟨h1, h2, -⟩ := handle_flash_encrypt_data_pos f length _ s rfl h
    rw [h1, h2]
    have hle : (if s.remaining < length then s.remaining else length) ≤
        s.remaining := by split <;> omega
    rw [Nat.mod_add_mod]
    congr 1
    omega

theorem handle_flash_encrypt_data_sum_le (f : Bool) (length : Nat)
    (s : FlashState) :
    (handle_flash_encrypt_data f length s).1.next_write +
      (handle_flash_encrypt_data f length s).1.remaining ≤
    s.next_write + s.remaining := by
  by_cases h : (if s.remaining < length then s.remaining else length) = 0
  · rw [handle_flash_encrypt_data_clamp_zero f length s h]
  · obtain ⟨h1, h2, -⟩ := handle_flash_encrypt_data_pos f length _ s rfl h
    rw [h1, h2]
    have hle : (if s.remaining < length then s.remaining else length) ≤
        s.remaining := by split <;> omega
    have hmod := Nat.mod_le
      (s.next_write + if s.remaining < length then s.remaining else length)
      U32
    omega

theorem handle_flash_encrypt_data_last_error_cases (f : Bool) (length : Nat)
    (s : FlashState) :
    (handle_flash_encrypt_data f length s).1.last_error = s.last_error ∨
    (handle_flash_encrypt_data f length s).1.last_error =
      .ESP_FAILED_SPI_OP := by
  by_cases h : (if s.remaining < length then s.remaining else length) = 0
  · rw [handle_flash_encrypt_data_clamp_zero f length s h]
    exact Or.inl rfl
  · obtain ⟨-, -, h3⟩ := handle_flash_encrypt_data_pos f length _ s rfl h
    rw [h3]
    cases f <;> simp

/-! Facts about the decompression pipeline. -/

theorem deflateLoop_sum_mod (env : DeflateEnv) (fuel : Nat) :
    ∀ (k length : Nat) (status : Int) (s : FlashState),
    ((deflateLoop env fuel k length status s).1.next_write +
      (deflateLoop env fuel k length status s).1.remaining) % U32 =
    (s.next_write + s.remaining) % U32 := by
  induction fuel with
  | zero => intro k length status s; rfl
  | succ n ih =>
    intro k length status s
    simp only [deflateLoop]
    split_ifs with hg hf
    · rw [ih]
      simp [handle_flash_data_sum_mod]
    · rw [ih]
      simp
    · rfl

theorem deflateLoop_sum_le (env : DeflateEnv) (fuel : Nat) :
    ∀ (k length : Nat) (status : Int) (s : FlashState),
    (deflateLoop env fuel k length status s).1.next_write +
      (deflateLoop env fuel k length status s).1.remaining ≤
    s.next_write + s.remaining := by
  induction fuel with
  | zero => intro k length status s; exact le_refl _
  | succ n ih =>
    intro k length status s
    simp only [deflateLoop]
    split_ifs with hg hf
    · refine le_trans (ih _ _ _ _) ?_
      simp only [start_next_erase_next_write, start_next_erase_remaining,
        start_next_erase_inflator, start_next_erase_out_fill,
        start_next_erase_in_flash_mode, start_next_erase_last_error,
        start_next_erase_remaining_compressed]
      exact le_trans (handle_flash_data_sum_le _ _ _) (le_of_eq rfl)
    · refine le_trans (ih _ _ _ _) ?_
      simp
    · exact le_refl _

theorem deflateLoop_erase_sum (env : DeflateEnv) (fuel : Nat) :
    ∀ (k length : Nat) (status : Int) (s : FlashState),
    (deflateLoop env fuel k length status s).1.next_erase_sector +
      (deflateLoop env fuel k length status s).1.remaining_erase_sector =
    s.next_erase_sector + s.remaining_erase_sector := by
  induction fuel with
  | zero => intro k length status s; rfl
  | succ n ih =>
    intro k length status s
    simp only [deflateLoop]
    split_ifs with hg hf
    · rw [ih]
      exact Eq.trans (handle_flash_data_erase_sum _ _ _)
        (start_next_erase_sum _ s)
    · rw [ih]
      exact start_next_erase_sum _ s
    · rfl

theorem deflateLoop_last_error_cases (env : DeflateEnv) (fuel : Nat) :
    ∀ (k length : Nat) (status : Int) (s : FlashState),
    (deflateLoop env fuel k length status s).1.last_error = s.last_error ∨
    (deflateLoop env fuel k length status s).1.last_error =
      .ESP_FAILED_SPI_OP := by
  induction fuel with
  | zero => intro k length status s; exact Or.inl rfl
  | succ n ih =>
    intro k length status s
    simp only [deflateLoop]
    split_ifs with hg hf
    · rcases ih (k + 1) _ _ _ with h | h
      · rw [h]
        simp only []
        rcases handle_flash_data_last_error_cases (env.spi_fail k) _ _
          with h2 | h2
        · rw [h2]
          simp
        · exact Or.inr h2
      · exact Or.inr h
    · rcases ih (k + 1) _ _ _ with h | h
      · rw [h]
        simp
      · exact Or.inr h
    · exact Or.inl rfl

theorem handle_flash_deflated_data_next_write (env : DeflateEnv)
    (fuel length : Nat) (s : FlashState) :
    (handle_flash_deflated_data env fuel length s).1.next_write =
      (deflateLoop env fuel 0 length 1 s).1.next_write := by
  simp only [handle_flash_deflated_data]
  split_ifs <;> rfl

theorem handle_flash_deflated_data_remaining (env : DeflateEnv)
    (fuel length : Nat) (s : FlashState) :
    (handle_flash_deflated_data env fuel length s).1.remaining =
      (deflateLoop env fuel 0 length 1 s).1.remaining := by
  simp only [handle_flash_deflated_data]
  split_ifs <;> rfl

theorem handle_flash_deflated_data_next_erase_sector (env : DeflateEnv)
    (fuel length : Nat) (s : FlashState) :
    (handle_flash_deflated_data env fuel length s).1.next_erase_sector =
      (deflateLoop env fuel 0 length 1 s).1.next_erase_sector := by
  simp only [handle_flash_deflated_data]
  split_ifs <;> rfl

theorem handle_flash_deflated_data_remaining_erase_sector (env : DeflateEnv)
    (fuel length : Nat) (s : FlashState) :
    (handle_flash_deflated_data env fuel length s).1.remaining_erase_sector =
      (deflateLoop env fuel 0 length 1 s).1.remaining_erase_sector := by
  simp only [handle_flash_deflated_data]
  split_ifs <;> rfl

theorem handle_flash_deflated_data_sum_mod (env : DeflateEnv)
    (fuel length : Nat) (s : FlashState) :
    ((handle_flash_deflated_data env fuel length s).1.next_write +
      (handle_flash_deflated_data env fuel length s).1.remaining) % U32 =
    (s.next_write + s.remaining) % U32 := by
  rw [handle_flash_deflated_data_next_write,
    handle_flash_deflated_data_remaining]
  exact deflateLoop_sum_mod env fuel 0 length 1 s

theorem handle_flash_deflated_data_sum_le (env : DeflateEnv)
    (fuel length : Nat) (s : FlashState) :
    (handle_flash_deflated_data env fuel length s).1.next_write +
      (handle_flash_deflated_data env fuel length s).1.remaining ≤
    s.next_write + s.remaining := by
  rw [handle_flash_deflated_data_next_write,
    handle_flash_deflated_data_remaining]
  exact deflateLoop_sum_le env fuel 0 length 1 s

theorem handle_flash_deflated_data_erase_sum (env : DeflateEnv)
    (fuel length : Nat) (s : FlashState) :
    (handle_flash_deflated_data env fuel length s).1.next_erase_sector +
      (handle_flash_deflated_data env fuel length s).1.remaining_erase_sector =
    s.next_erase_sector + s.remaining_erase_sector := by
  rw [handle_flash_deflated_data_next_erase_sector,
    handle_flash_deflated_data_remaining_erase_sector]
  exact deflateLoop_erase_sum env fuel 0 length 1 s

theorem handle_flash_deflated_data_last_error_ne_ok (env : DeflateEnv)
    (fuel length : Nat) (s : FlashState) (h : s.last_error ≠ .ESP_OK) :
    (handle_flash_deflated_data env fuel length s).1.last_error ≠
      .ESP_OK := by
  simp only [handle_flash_deflated_data]
  split_ifs <;>
    (rcases deflateLoop_last_error_cases env fuel 0 length 1 s
      with h2 | h2 <;> simp [h2, h])

/-! Session invariants along reachable states. -/

theorem reached_sum_le (offset total_size : Nat) (s : FlashState)
    (h : Reached offset total_size s) :
    s.next_write + s.remaining ≤ offset + total_size := by
  induction h with
  | begin_step u s0 => cases u <;> simp [handle_flash_begin]
  | deflated_begin_step u c s0 =>
    cases u <;> simp [handle_flash_deflated_begin, handle_flash_begin]
  | data_step f len hr ih =>
    exact le_trans (handle_flash_data_sum_le f len _) ih
  | encrypt_step f len hr ih =>
    exact le_trans (handle_flash_encrypt_data_sum_le f len _) ih
  | deflated_step env fuel len hr ih =>
    exact le_trans (handle_flash_deflated_data_sum_le env fuel len _) ih
  | erase_step r hr ih => simpa using ih
  | end_step hr ih =>
    unfold handle_flash_end
    split_ifs <;> simpa using ih

theorem reached_sum_mod (offset total_size : Nat) (s : FlashState)
    (h : Reached offset total_size s) :
    (s.next_write + s.remaining) % U32 = (offset + total_size) % U32 := by
  induction h with
  | begin_step u s0 => cases u <;> simp [handle_flash_begin]
  | deflated_begin_step u c s0 =>
    cases u <;> simp [handle_flash_deflated_begin, handle_flash_begin]
  | data_step f len hr ih =>
    exact Eq.trans (handle_flash_data_sum_mod f len _) ih
  | encrypt_step f len hr ih =>
    exact Eq.trans (handle_flash_encrypt_data_sum_mod f len _) ih
  | deflated_step env fuel len hr ih =>
    exact Eq.trans (handle_flash_deflated_data_sum_mod env fuel len _) ih
  | erase_step r hr ih => simpa using ih
  | end_step hr ih =>
    unfold handle_flash_end
    split_ifs <;> simpa using ih

theorem reached_erase_lb (offset total_size : Nat)
    (h1 : offset % FLASH_SECTOR_SIZE + total_size +
      (FLASH_SECTOR_SIZE - 1) < U32)
    (s : FlashState) (h : Reached offset total_size s) :
    offset + total_size ≤
      FLASH_SECTOR_SIZE *
        (s.next_erase_sector + s.remaining_erase_sector) := by
  induction h with
  | begin_step u s0 =>
    cases u <;>
      (simp [handle_flash_begin]
       simp only [FLASH_SECTOR_SIZE, U32] at h1 ⊢
       omega)
  | deflated_begin_step u c s0 =>
    cases u <;>
      (simp [handle_flash_deflated_begin, handle_flash_begin]
       simp only [FLASH_SECTOR_SIZE, U32] at h1 ⊢
       omega)
  | data_step f len hr ih =>
    rw [handle_flash_data_erase_sum]
    exact ih
  | encrypt_step f len hr ih =>
    rw [handle_flash_encrypt_data_erase_sum]
    exact ih
  | deflated_step env fuel len hr ih =>
    rw [handle_flash_deflated_data_erase_sum]
    exact ih
  | erase_step r hr ih =>
    rw [start_next_erase_sum]
    exact ih
  | end_step hr ih =>
    unfold handle_flash_end
    split_ifs <;> simpa using ih

/-! Claim theorems. -/

/-- C2 counterexample: with a failing SPIUnlock, handle_flash_begin does
return the distinct error ESP_FAILED_SPI_UNLOCK, but the session is NOT left
inactive: is_in_flash_mode reports true afterwards, because the source sets
in_flash_mode before attempting the unlock and never rolls it back.  This
refutes the claim that after such a failing begin is_in_flash_mode() returns
false. -/
theorem C2_unlock_failure_counterexample :
    (handle_flash_begin false 100 0 initState).2 = .ESP_FAILED_SPI_UNLOCK ∧
    ¬ is_in_flash_mode (handle_flash_begin false 100 0 initState).1 =
        false := by
  constructor <;> decide

/-- C2 (amended): if the flash-protection-unlock sequence fails during begin,
handle_flash_begin returns the distinct error ESP_FAILED_SPI_UNLOCK, but the
session nevertheless remains active: all session fields, including the
in_flash_mode flag, were already set before the unlock attempt, so
is_in_flash_mode() returns true after the failing begin. -/
theorem C2_unlock_failure (total_size offset : Nat) (s : FlashState) :
    (handle_flash_begin false total_size offset s).2 =
      .ESP_FAILED_SPI_UNLOCK ∧
    is_in_flash_mode (handle_flash_begin false total_size offset s).1 =
      true := by
  exact ⟨rfl, rfl⟩

/-- C3 counterexample: for total_size 4294967295 and offset 0 the sector
count computation of handle_flash_begin overflows 32-bit arithmetic, so
remaining_erase_sector is 0 instead of the claimed value
ceil((offset mod FLASH_SECTOR_SIZE + total_size) / FLASH_SECTOR_SIZE),
which is 1048576.  This refutes the claim as stated for every total_size
and offset. -/
theorem C3_begin_state_counterexample :
    (handle_flash_begin true 4294967295 0 initState).1.remaining_erase_sector
      ≠ specCeilDiv (0 % FLASH_SECTOR_SIZE + 4294967295)
          FLASH_SECTOR_SIZE := by
  decide

/-- C3 (amended): provided the 32-bit computation
offset mod FLASH_SECTOR_SIZE + total_size + (FLASH_SECTOR_SIZE - 1) does not
overflow, a successful handle_flash_begin(total_size, offset) returns ESP_OK
and leaves the session active with next_write = offset, next_erase_sector =
offset / FLASH_SECTOR_SIZE, remaining = total_size, remaining_erase_sector =
ceil((offset mod FLASH_SECTOR_SIZE + total_size) / FLASH_SECTOR_SIZE), and
last_error cleared to ESP_OK. -/
theorem C3_begin_state (total_size offset : Nat) (s : FlashState)
    (h : offset % FLASH_SECTOR_SIZE + total_size + (FLASH_SECTOR_SIZE - 1) <
      U32) :
    (handle_flash_begin true total_size offset s).2 = .ESP_OK ∧
    (handle_flash_begin true total_size offset s).1.in_flash_mode = true ∧
    (handle_flash_begin true total_size offset s).1.next_write = offset ∧
    (handle_flash_begin true total_size offset s).1.next_erase_sector =
      offset / FLASH_SECTOR_SIZE ∧
    (handle_flash_begin true total_size offset s).1.remaining = total_size ∧
    (handle_flash_begin true total_size offset s).1.remaining_erase_sector =
      specCeilDiv (offset % FLASH_SECTOR_SIZE + total_size)
        FLASH_SECTOR_SIZE ∧
    (handle_flash_begin true total_size offset s).1.last_error = .ESP_OK := by
  refine ⟨rfl, rfl, rfl, rfl, rfl, ?_, rfl⟩
  show ((offset % FLASH_SECTOR_SIZE + total_size + (FLASH_SECTOR_SIZE - 1))
      % U32) / FLASH_SECTOR_SIZE = _
  simp only [specCeilDiv, FLASH_SECTOR_SIZE, U32] at h ⊢
  omega

/-- C3 witness: a concrete successful begin with total_size 8192 at offset 0
computes remaining_erase_sector as the exact ceiling, namely 2 sectors. -/
theorem C3_begin_state_witness :
    (handle_flash_begin true 8192 0 initState).1.remaining_erase_sector =
      specCeilDiv (0 % FLASH_SECTOR_SIZE + 8192) FLASH_SECTOR_SIZE :=
  (C3_begin_state 8192 0 initState (by decide)).2.2.2.2.2.1

/-- C4: handle_flash_end returns ESP_NOT_IN_FLASH_MODE when no session is
active, returns ESP_NOT_ENOUGH_DATA when bytes remain (leaving the state
untouched), and otherwise clears the active flag and returns the latched
sticky error; and the scenario begin(total_size = 100, offset = 0) followed
directly by end() returns ESP_NOT_ENOUGH_DATA. -/
theorem C4_end_reporting (s : FlashState) :
    (s.in_flash_mode = false →
      handle_flash_end s = (s, .ESP_NOT_IN_FLASH_MODE)) ∧
    (s.in_flash_mode = true → 0 < s.remaining →
      handle_flash_end s = (s, .ESP_NOT_ENOUGH_DATA)) ∧
    (s.in_flash_mode = true → s.remaining = 0 →
      handle_flash_end s =
        ({ s with in_flash_mode := false }, s.last_error)) ∧
    (∀ s0 : FlashState,
      (handle_flash_end (handle_flash_begin true 100 0 s0).1).2 =
        .ESP_NOT_ENOUGH_DATA) := by
  refine ⟨?_, ?_, ?_, ?_⟩
  · intro h
    simp [handle_flash_end, h]
  · intro h h2
    simp [handle_flash_end, h, h2]
  · intro h h2
    simp [handle_flash_end, h, h2]
  · intro s0
    rfl

/-- C4 witness: concrete instances of the three result cases of
handle_flash_end and of the insufficient-data scenario. -/
theorem C4_end_reporting_witness :
    handle_flash_end initState = (initState, .ESP_NOT_IN_FLASH_MODE) ∧
    handle_flash_end (handle_flash_begin true 100 0 initState).1 =
      ((handle_flash_begin true 100 0 initState).1,
        .ESP_NOT_ENOUGH_DATA) ∧
    handle_flash_end { initState with in_flash_mode := true } =
      ({ initState with in_flash_mode := false }, .ESP_OK) ∧
    (handle_flash_end (handle_flash_begin true 100 0 initState).1).2 =
      .ESP_NOT_ENOUGH_DATA :=
  ⟨(C4_end_reporting initState).1 rfl,
   (C4_end_reporting _).2.1 rfl (by decide),
   (C4_end_reporting _).2.2.1 rfl rfl,
   (C4_end_reporting initState).2.2.2 initState⟩

/-- C5: handle_flash_data clamps the write length to the bytes remaining:
when length exceeds remaining it programs exactly remaining bytes and sets
remaining to 0; and when the clamped length is zero the call is a complete
no-op, leaving the state untouched and issuing no hardware command. -/
theorem C5_data_clamp (f : Bool) (length : Nat) (s : FlashState) :
    (s.remaining < length →
      progBytes (handle_flash_data f length s).2 = s.remaining ∧
      (handle_flash_data f length s).1.remaining = 0) ∧
    ((if s.remaining < length then s.remaining else length) = 0 →
      handle_flash_data f length s = (s, [])) := by
  constructor
  · intro h
    by_cases hz : s.remaining = 0
    · rw [handle_flash_data_clamp_zero f length s (by simp [h, hz])]
      exact ⟨by simp [progBytes, hz], hz⟩
    · obtain ⟨-, h2, -, h4⟩ :=
        handle_flash_data_pos f length s.remaining s (by simp [h]) hz
      refine ⟨h4, ?_⟩
      rw [h2]
      omega
  · exact handle_flash_data_clamp_zero f length s

/-- C5 witness: a session opened for 100 bytes receiving a 200-byte packet
programs exactly 100 bytes and ends with remaining 0; and a zero-length call
on the idle state is a complete no-op. -/
theorem C5_data_clamp_witness :
    (progBytes (handle_flash_data false 200
        (handle_flash_begin true 100 0 initState).1).2 = 100 ∧
      (handle_flash_data false 200
        (handle_flash_begin true 100 0 initState).1).1.remaining = 0) ∧
    handle_flash_data false 0 initState = (initState, []) :=
  ⟨(C5_data_clamp false 200 _).1 (by decide),
   (C5_data_clamp false 0 initState).2 (by decide)⟩

/-- C7: when start_next_erase has work to do and the flash is ready, it
erases a full 64 KiB block, advancing next_erase_sector and decrementing
remaining_erase_sector by SECTORS_PER_BLOCK in one command, exactly when at
least SECTORS_PER_BLOCK sectors remain to erase and next_erase_sector is
block aligned; otherwise it issues a single 4 KiB sector erase and advances
the counters by one. -/
theorem C7_erase_unit_choice (s : FlashState)
    (h : s.remaining_erase_sector ≠ 0) :
    (SECTORS_PER_BLOCK ≤ s.remaining_erase_sector ∧
        s.next_erase_sector % SECTORS_PER_BLOCK = 0 →
      (start_next_erase true s).1.next_erase_sector =
        s.next_erase_sector + SECTORS_PER_BLOCK ∧
      (start_next_erase true s).1.remaining_erase_sector =
        s.remaining_erase_sector - SECTORS_PER_BLOCK ∧
      (start_next_erase true s).2 =
        [FlashCmd.eraseBlock
          (s.next_erase_sector * FLASH_SECTOR_SIZE % 16777216)]) ∧
    (¬ (SECTORS_PER_BLOCK ≤ s.remaining_erase_sector ∧
        s.next_erase_sector % SECTORS_PER_BLOCK = 0) →
      (start_next_erase true s).1.next_erase_sector =
        s.next_erase_sector + 1 ∧
      (start_next_erase true s).1.remaining_erase_sector =
        s.remaining_erase_sector - 1 ∧
      (start_next_erase true s).2 =
        [FlashCmd.eraseSector
          (s.next_erase_sector * FLASH_SECTOR_SIZE % 16777216)]) := by
  constructor <;> intro hb <;> simp [start_next_erase, h, hb]

/-- C7 witness: with exactly SECTORS_PER_BLOCK sectors remaining and a block
aligned cursor the next erase is one full block (the erase tie-break scenario
of the specification), while with 5 sectors remaining at an unaligned cursor
it is a single sector. -/
theorem C7_erase_unit_choice_witness :
    ((start_next_erase true
        { initState with remaining_erase_sector := 16 }).1.next_erase_sector
      = 16 ∧
     (start_next_erase true
        { initState with
            remaining_erase_sector := 16 }).1.remaining_erase_sector = 0 ∧
     (start_next_erase true { initState with remaining_erase_sector := 16 }).2
      = [FlashCmd.eraseBlock 0]) ∧
    (start_next_erase true
      { initState with
          next_erase_sector := 1,
          remaining_erase_sector := 5 }).2 = [FlashCmd.eraseSector 4096] :=
  ⟨(C7_erase_unit_choice _ (by decide)).1 (by decide),
   ((C7_erase_unit_choice _ (by decide)).2 (by decide)).2.2⟩

/-- C9 counterexample: a compressed session whose deflated_data call leaves
five decoded bytes buffered (the decompressor asks for more input before the
buffer fills, so nothing is flushed) is followed by a fresh
handle_flash_deflated_begin; the fill offset of the output accumulation
buffer is still 5 after that begin, not 0, because the static output pointer
is not reinitialized by deflated_begin.  This refutes the claim that the
output buffer fill offset is at the start of the buffer after
deflated_begin. -/
theorem C9_deflated_begin_counterexample :
    ¬ (handle_flash_deflated_begin true 50 20 0
        (handle_flash_deflated_data envNeedsInput 2 3
          (handle_flash_deflated_begin true 100 10 0
            initState).1).1).1.out_fill = 0 ∧
    (handle_flash_deflated_begin true 50 20 0
        (handle_flash_deflated_data envNeedsInput 2 3
          (handle_flash_deflated_begin true 100 10 0
            initState).1).1).1.out_fill = 5 := by
  constructor <;> decide

/-- C9 (amended): handle_flash_deflated_begin resets the inflate engine
context (tinfl_init) and sets remaining_compressed to the new compressed
size, but it does not touch the output accumulation buffer: the buffer fill
offset is left exactly as the previous calls left it (it is only reset by a
flush inside handle_flash_deflated_data), so the Decompressor State is not
entirely recreated across sessions. -/
theorem C9_deflated_begin_resets (unlock_ok : Bool)
    (uncompressed_size compressed_size offset : Nat) (s : FlashState) :
    (handle_flash_deflated_begin unlock_ok uncompressed_size compressed_size
      offset s).1.inflator = 0 ∧
    (handle_flash_deflated_begin unlock_ok uncompressed_size compressed_size
      offset s).1.remaining_compressed = compressed_size ∧
    (handle_flash_deflated_begin unlock_ok uncompressed_size compressed_size
      offset s).1.out_fill = s.out_fill := by
  cases unlock_ok <;> exact ⟨rfl, rfl, rfl⟩

/-- C6 counterexample: within one session (no intervening begin), a failing
SPIWrite latches ESP_FAILED_SPI_OP, and a later data-phase call (a
deflated_data call whose decompressor reports completion while plain bytes
are still expected) overwrites the latched value with ESP_NOT_ENOUGH_DATA.
This refutes the claim that the sticky error is never overwritten by later
data-phase calls before the next begin. -/
theorem C6_sticky_error_counterexample :
    (handle_flash_data true 5
      (handle_flash_begin true 10 0 initState).1).1.last_error =
      .ESP_FAILED_SPI_OP ∧
    (handle_flash_deflated_data envDone 2 1
      (handle_flash_data true 5
        (handle_flash_begin true 10 0 initState).1).1).1.last_error =
      .ESP_NOT_ENOUGH_DATA := by
  constructor <;> decide

/-- C6 (amended): the sticky error is latched on failure and is never
cleared back to ESP_OK by any data-phase call until the next begin, but a
later failure of a different kind overwrites the stored value (the last
failure wins, not the first); data calls after a failure still advance the
write cursor and the byte count exactly as successful ones do, and the error
is only surfaced at session end, where handle_flash_end returns it and
get_flash_error reports the same value. -/
theorem C6_sticky_error_policy :
    (∀ (f : Bool) (len : Nat) (s : FlashState), s.last_error ≠ .ESP_OK →
      (handle_flash_data f len s).1.last_error ≠ .ESP_OK) ∧
    (∀ (f : Bool) (len : Nat) (s : FlashState), s.last_error ≠ .ESP_OK →
      (handle_flash_encrypt_data f len s).1.last_error ≠ .ESP_OK) ∧
    (∀ (env : DeflateEnv) (fuel len : Nat) (s : FlashState),
      s.last_error ≠ .ESP_OK →
      (handle_flash_deflated_data env fuel len s).1.last_error ≠ .ESP_OK) ∧
    (∀ (f : Bool) (length len : Nat) (s : FlashState),
      (if s.remaining < length then s.remaining else length) = len →
      len ≠ 0 →
      (handle_flash_data f length s).1.next_write =
        (s.next_write + len) % U32 ∧
      (handle_flash_data f length s).1.remaining = s.remaining - len) ∧
    (∀ s : FlashState, s.in_flash_mode = true → s.remaining = 0 →
      (handle_flash_end s).2 = s.last_error ∧
      get_flash_error (handle_flash_end s).1 = s.last_error) := by
  refine ⟨?_, ?_, ?_, ?_, ?_⟩
  · intro f len s h
    rcases handle_flash_data_last_error_cases f len s with h2 | h2 <;>
      simp [h2, h]
  · intro f len s h
    rcases handle_flash_encrypt_data_last_error_cases f len s with h2 | h2 <;>
      simp [h2, h]
  · intro env fuel len s h
    exact handle_flash_deflated_data_last_error_ne_ok env fuel len s h
  · intro f length len s hlen hpos
    obtain ⟨h1, h2, -, -⟩ := handle_flash_data_pos f length len s hlen hpos
    exact ⟨h1, h2⟩
  · intro s h h2
    unfold handle_flash_end get_flash_error
    simp [h, h2]

/-- C6 witness: after a latched hardware failure, a further data call keeps
the error non-Ok and still advances the cursor, and end surfaces the latched
value. -/
theorem C6_sticky_error_policy_witness :
    (handle_flash_data false 1
      { initState with
          remaining := 5,
          last_error := .ESP_FAILED_SPI_OP }).1.last_error ≠ .ESP_OK ∧
    (handle_flash_data false 1
      { initState with
          remaining := 5,
          last_error := .ESP_FAILED_SPI_OP }).1.next_write = (0 + 1) % U32 ∧
    (handle_flash_end
      { initState with
          in_flash_mode := true,
          last_error := .ESP_FAILED_SPI_OP }).2 = .ESP_FAILED_SPI_OP :=
  ⟨C6_sticky_error_policy.1 false 1 _ (by decide),
   (C6_sticky_error_policy.2.2.2.1 false 1 1 _ (by decide) (by decide)).1,
   (C6_sticky_error_policy.2.2.2.2 _ rfl rfl).1⟩

/-- C8 counterexample: with a decompressor that emits the last expected
plain bytes and then reports the failure status -1 in the same
tinfl_decompress call, a single handle_flash_deflated_data call ends its
loop with status below TINFL_STATUS_DONE (the InflateError condition) and
with remaining = 0 (the TooMuchData condition) simultaneously; the two
conditions are therefore not mutually exclusive, and the latched error is
ESP_TOO_MUCH_DATA because that assignment comes last in the source.  This
refutes the claim that at most one of the three terminal conditions applies
per call. -/
theorem C8_terminal_conditions_counterexample :
    (deflateLoop envFailAfterOutput 2 0 3 1
      (handle_flash_begin true 4 0 initState).1).2.1 < 0 ∧
    (deflateLoop envFailAfterOutput 2 0 3 1
      (handle_flash_begin true 4 0 initState).1).1.remaining = 0 ∧
    (handle_flash_deflated_data envFailAfterOutput 2 3
      (handle_flash_begin true 4 0 initState).1).1.last_error =
      .ESP_TOO_MUCH_DATA := by
  refine ⟨by decide, by decide, by decide⟩

/-- C8 (amended): after a single handle_flash_deflated_data call, the
NotEnoughData condition (decompression finished, plain bytes still expected)
excludes both the InflateError condition (status below done) and the
TooMuchData condition (not finished, no plain bytes expected), but the
InflateError and TooMuchData conditions can hold together; when they do, the
latched sticky error is ESP_TOO_MUCH_DATA because its assignment comes last
in the source. -/
theorem C8_terminal_conditions (env : DeflateEnv) (fuel length : Nat)
    (s : FlashState) :
    ¬ ((deflateLoop env fuel 0 length 1 s).2.1 < 0 ∧
       (deflateLoop env fuel 0 length 1 s).2.1 = 0 ∧
       0 < (deflateLoop env fuel 0 length 1 s).1.remaining) ∧
    ¬ (((deflateLoop env fuel 0 length 1 s).2.1 = 0 ∧
        0 < (deflateLoop env fuel 0 length 1 s).1.remaining) ∧
       (deflateLoop env fuel 0 length 1 s).2.1 ≠ 0 ∧
       (deflateLoop env fuel 0 length 1 s).1.remaining = 0) ∧
    ((deflateLoop env fuel 0 length 1 s).2.1 < 0 ∧
      (deflateLoop env fuel 0 length 1 s).1.remaining = 0 →
      (handle_flash_deflated_data env fuel length s).1.last_error =
        .ESP_TOO_MUCH_DATA) := by
  refine ⟨?_, ?_, ?_⟩
  · rintro ⟨h1, h2, h3⟩
    omega
  · rintro ⟨⟨h1, h2⟩, h3, h4⟩
    omega
  · rintro ⟨h1, h2⟩
    simp only [handle_flash_deflated_data]
    split_ifs <;> simp_all

/-- C8 witness: the overwrite case in action on a concrete run where both
the InflateError and the TooMuchData conditions hold. -/
theorem C8_terminal_conditions_witness :
    (handle_flash_deflated_data envFailAfterOutput 2 3
      (handle_flash_begin true 4 0 initState).1).1.last_error =
      .ESP_TOO_MUCH_DATA :=
  (C8_terminal_conditions envFailAfterOutput 2 3
    (handle_flash_begin true 4 0 initState).1).2.2 ⟨by decide, by decide⟩

/-- C1 counterexample: begin(total_size = 4294959106, offset = 4095) makes
the 32-bit sector-count computation wrap to 0, so the session starts with
remaining_erase_sector = 0 while nothing has been erased; the erase loop of
a following one-byte write exits immediately and the program primitive is
issued at next_write = 4095 although the erase frontier is still
next_erase_sector = 0, violating
next_erase_sector * FLASH_SECTOR_SIZE >= next_write.  This refutes the claim
as stated for every active session. -/
theorem C1_erase_frontier_counterexample :
    ¬ ((handle_flash_begin true 4294959106 4095 initState).1.next_write ≤
        FLASH_SECTOR_SIZE *
          (eraseCover
            (handle_flash_begin true 4294959106 4095
              initState).1.remaining_erase_sector
            ((((handle_flash_begin true 4294959106 4095
                  initState).1.next_write +
                (if (handle_flash_begin true 4294959106 4095
                      initState).1.remaining < 1
                 then (handle_flash_begin true 4294959106 4095
                      initState).1.remaining
                 else 1)) % U32) / FLASH_SECTOR_SIZE)
            (handle_flash_begin true 4294959106 4095
              initState).1).1.next_erase_sector) ∧
    (if (handle_flash_begin true 4294959106 4095 initState).1.remaining < 1
     then (handle_flash_begin true 4294959106 4095 initState).1.remaining
     else 1) ≠ 0 := by
  constructor <;> decide

/-- C1 (amended): for every session opened with parameters whose erase-count
computation does not overflow 32-bit arithmetic
(offset mod FLASH_SECTOR_SIZE + total_size + FLASH_SECTOR_SIZE - 1 fits in
u32) and whose write span lies below the 32-bit address space
(offset + total_size < 2 to the 32), every state reached by data-phase
calls, and every plain or encrypted data call with a non-zero clamped
length: by the time the program primitive is issued the erase loop has
terminated with remaining_erase_sector = 0 or with next_erase_sector past
the last sector index computed for this write, and the erase frontier
covers the write cursor, next_erase_sector * FLASH_SECTOR_SIZE >=
next_write; moreover both handle_flash_data and handle_flash_encrypt_data
issue exactly the commands of that erase loop followed by the program
primitive at next_write. -/
theorem C1_erase_frontier (offset total_size : Nat) (s : FlashState)
    (hr : Reached offset total_size s)
    (h1 : offset % FLASH_SECTOR_SIZE + total_size + (FLASH_SECTOR_SIZE - 1) <
      U32)
    (h2 : offset + total_size < U32)
    (length len last_sector : Nat) (t : FlashState)
    (hlen : (if s.remaining < length then s.remaining else length) = len)
    (hpos : len ≠ 0)
    (hlast : last_sector = ((s.next_write + len) % U32) / FLASH_SECTOR_SIZE)
    (ht : t = (eraseCover s.remaining_erase_sector last_sector s).1) :
    (t.remaining_erase_sector = 0 ∨ last_sector < t.next_erase_sector) ∧
    s.next_write ≤ FLASH_SECTOR_SIZE * t.next_erase_sector ∧
    (∀ f : Bool, (handle_flash_data f length s).2 =
      (eraseCover s.remaining_erase_sector last_sector s).2 ++
        [FlashCmd.program s.next_write len]) ∧
    (∀ f : Bool, (handle_flash_encrypt_data f length s).2 =
      (eraseCover s.remaining_erase_sector last_sector s).2 ++
        [FlashCmd.programEncrypted s.next_write len]) := by
  subst hlen
  subst hlast
  subst ht
  refine ⟨eraseCover_exit _ _ _ (le_refl _), ?_, ?_, ?_⟩
  · have hle : (if s.remaining < length then s.remaining else length) ≤
        s.remaining := by split <;> omega
    have hsum := reached_sum_le offset total_size s hr
    have hlb := reached_erase_lb offset total_size h1 s hr
    have hx := eraseCover_exit s.remaining_erase_sector
      (((s.next_write +
          (if s.remaining < length then s.remaining else length)) % U32) /
        FLASH_SECTOR_SIZE) s (le_refl _)
    have hsum2 := eraseCover_sum s.remaining_erase_sector
      (((s.next_write +
          (if s.remaining < length then s.remaining else length)) % U32) /
        FLASH_SECTOR_SIZE) s
    simp only [FLASH_SECTOR_SIZE, U32] at *
    omega
  · intro f
    simp only [handle_flash_data]
    rw [if_neg hpos]
    simp
  · intro f
    simp only [handle_flash_encrypt_data]
    rw [if_neg hpos]
    simp

/-- C1 witness: a concrete session begin(total_size = 4096, offset = 0)
followed by a full-length write; the erase loop erases the one needed sector
and the frontier covers the write cursor. -/
theorem C1_erase_frontier_witness :
    (handle_flash_begin true 4096 0 initState).1.next_write ≤
      FLASH_SECTOR_SIZE *
        (eraseCover
          (handle_flash_begin true 4096 0
            initState).1.remaining_erase_sector
          ((((handle_flash_begin true 4096 0 initState).1.next_write +
              4096) % U32) / FLASH_SECTOR_SIZE)
          (handle_flash_begin true 4096 0
            initState).1).1.next_erase_sector :=
  (C1_erase_frontier 0 4096 _ (Reached.begin_step true initState)
    (by decide) (by decide) 4096 4096 _ _ (by decide) (by decide)
    rfl rfl).2.1

/-- C10 counterexample: begin(total_size = 5, offset = 4294967295)
establishes next_write + remaining = offset + total_size, but the first
handle_flash_data call of length 5 wraps the 32-bit write cursor, leaving
next_write + remaining = 4 instead of 4294967300, so the call does not
preserve the exact equation.  This refutes the claim that every data call
preserves next_write + remaining = offset + total_size. -/
theorem C10_cursor_accounting_counterexample :
    (handle_flash_begin true 5 4294967295 initState).1.next_write +
      (handle_flash_begin true 5 4294967295 initState).1.remaining =
      4294967295 + 5 ∧
    (handle_flash_data false 5
        (handle_flash_begin true 5 4294967295 initState).1).1.next_write +
      (handle_flash_data false 5
        (handle_flash_begin true 5 4294967295 initState).1).1.remaining ≠
      4294967295 + 5 := by
  constructor <;> decide

/-- C10 (amended): handle_flash_begin(total_size, offset) establishes
next_write + remaining = offset + total_size exactly; every call to
handle_flash_data, handle_flash_encrypt_data or handle_flash_deflated_data
preserves that sum modulo 2 to the 32 (each advances next_write, with
32-bit wraparound, by exactly the amount it subtracts from remaining);
consequently every state reached within the session satisfies the equation
modulo 2 to the 32, and when offset + total_size does not overflow the sum
is preserved exactly, so when remaining reaches 0 the write cursor sits
exactly at offset + total_size. -/
theorem C10_cursor_accounting (offset total_size : Nat) :
    (∀ (u : Bool) (s0 : FlashState),
      (handle_flash_begin u total_size offset s0).1.next_write +
        (handle_flash_begin u total_size offset s0).1.remaining =
      offset + total_size) ∧
    (∀ (f : Bool) (len : Nat) (s : FlashState),
      ((handle_flash_data f len s).1.next_write +
        (handle_flash_data f len s).1.remaining) % U32 =
      (s.next_write + s.remaining) % U32) ∧
    (∀ (f : Bool) (len : Nat) (s : FlashState),
      ((handle_flash_encrypt_data f len s).1.next_write +
        (handle_flash_encrypt_data f len s).1.remaining) % U32 =
      (s.next_write + s.remaining) % U32) ∧
    (∀ (env : DeflateEnv) (fuel len : Nat) (s : FlashState),
      ((handle_flash_deflated_data env fuel len s).1.next_write +
        (handle_flash_deflated_data env fuel len s).1.remaining) % U32 =
      (s.next_write + s.remaining) % U32) ∧
    (∀ s : FlashState, Reached offset total_size s →
      (s.next_write + s.remaining) % U32 = (offset + total_size) % U32 ∧
      (offset + total_size < U32 →
        s.next_write + s.remaining = offset + total_size ∧
        (s.remaining = 0 → s.next_write = offset + total_size))) := by
  refine ⟨?_, ?_, ?_, ?_, ?_⟩
  · intro u s0
    cases u <;> simp [handle_flash_begin]
  · exact handle_flash_data_sum_mod
  · exact handle_flash_encrypt_data_sum_mod
  · exact handle_flash_deflated_data_sum_mod
  · intro s hs
    have hmod := reached_sum_mod offset total_size s hs
    have hle := reached_sum_le offset total_size s hs
    refine ⟨hmod, fun hlt => ?_⟩
    have heq : s.next_write + s.remaining = offset + total_size := by
      simp only [U32] at hmod hlt
      omega
    exact ⟨heq, fun hz => by omega⟩

/-- C10 witness: for the session begin(total_size = 100, offset = 0) the
reached begin state satisfies the exact accounting equation. -/
theorem C10_cursor_accounting_witness :
    (handle_flash_begin true 100 0 initState).1.next_write +
      (handle_flash_begin true 100 0 initState).1.remaining = 0 + 100 :=
  (((C10_cursor_accounting 0 100).2.2.2.2 _
    (Reached.begin_step true initState)).2 (by decide)).1
